import Mathlib

/-!
Shallow embedding of `largegroup_schema/scripts/validator.py`: a universal
validator for JSON Schemas, JSON instances and OpenAPI specs.  File paths are
modelled as strings with `/` as separator; the relevant fragments of Python
`pathlib` (`name`, `suffix`, `with_suffix`) are reproduced over character
lists.  The third-party validation engines, file loading and the network fetch
are external collaborators and appear as oracle parameters; the filesystem
appears as an existence oracle `String → Bool`.  Exceptions are modelled with
`Except`, the mutable instance document by explicit state passing, and the
printed report lines and the process exit code are returned as data.
-/

namespace Validator

/-- JSON values, as produced by `json.load`.  Python dicts become association
lists of string keys. -/
inductive Json where
  | null : Json
  | bool (b : Bool) : Json
  | num (n : Int) : Json
  | str (s : String) : Json
  | arr (xs : List Json) : Json
  | obj (fields : List (String × Json)) : Json

/-- A JSON object (Python dict): association list of key/value pairs. -/
abbrev Dict := List (String × Json)

/-- Characters of a path after the last `/` separator: `pathlib.Path.name`
for a normalised path. -/
def afterLastSlash (cs : List Char) : List Char :=
  (cs.reverse.takeWhile (fun c => c != '/')).reverse

/-- `pathlib.Path(p).name`. -/
def pyName (p : String) : String :=
  String.mk (afterLastSlash p.data)

/-- Index of the first `.` in a character list, `none` when absent. -/
def revDotIdx : List Char → Option Nat
  | [] => none
  | c :: cs => if c == '.' then some 0 else (revDotIdx cs).map (· + 1)

/-- Index of the last `.` in a character list (Python `str.rfind`). -/
def lastDotIdx (cs : List Char) : Option Nat :=
  (revDotIdx cs.reverse).map (fun j => cs.length - 1 - j)

/-- The suffix of a file name, per `pathlib`: the part of the name from its
last dot on, provided that dot is neither the first nor the last character;
empty otherwise. -/
def nameSuffix (n : List Char) : List Char :=
  match lastDotIdx n with
  | some i => if 0 < i ∧ i + 1 < n.length then n.drop i else []
  | none => []

/-- `pathlib.Path(p).suffix`. -/
def pySuffix (p : String) : String :=
  String.mk (nameSuffix (pyName p).data)

/-- `pathlib.Path(p).with_suffix(suf)`: drop the old suffix of the final
component, when there is one, and append `suf`. -/
def pyWithSuffix (p suf : String) : String :=
  let cs := p.data
  let n := afterLastSlash cs
  let dir := cs.take (cs.length - n.length)
  let old := nameSuffix n
  let newName :=
    if old.isEmpty then n ++ suf.data else n.take (n.length - old.length) ++ suf.data
  String.mk (dir ++ newName)

/-- `pat.data.isSuffixOf s.data`: Python `s.endswith(pat)`. -/
def endsWithStr (s pat : String) : Bool :=
  pat.data.isSuffixOf s.data

/-- Python `pat in s` on strings: substring containment. -/
def containsSub (pat s : String) : Bool :=
  (List.range (s.data.length + 1)).any (fun i => pat.data.isPrefixOf (s.data.drop i))

/-- Python `str.replace`: replace all non-overlapping occurrences of `pat`,
scanning left to right.  The fuel (the length of the scanned list) makes the
recursion structural; it never runs out, since every step consumes at least
one character when `pat` is nonempty, and an empty `pat` never matches a
modelled call. -/
def replaceFuel (pat rep : List Char) : Nat → List Char → List Char
  | _, [] => []
  | 0, s => s
  | fuel + 1, c :: cs =>
    if pat ≠ [] ∧ pat.isPrefixOf (c :: cs) then
      rep ++ replaceFuel pat rep fuel ((c :: cs).drop pat.length)
    else c :: replaceFuel pat rep fuel cs

/-- `s.replace(pat, rep)` on strings. -/
def pyReplace (s pat rep : String) : String :=
  String.mk (replaceFuel pat.data rep.data s.data.length s.data)

/-- `path.suffix in [".yaml", ".yml"]`. -/
def isYamlSuffix (s : String) : Bool :=
  s == ".yaml" || s == ".yml"

/-- The five classification outcomes of the suffix-dispatch in
`discover_and_validate` (and of the spec classifier): the four validation
rules plus Skip. -/
inductive Rule where
  | schemaFile : Rule
  | openapiSpecYaml : Rule
  | jsonInstance : Rule
  | yamlInstance : Rule
  | skip : Rule
deriving Repr, DecidableEq

/-- The `if`/`elif` classification chain of `discover_and_validate`
(validator.py lines 111-118), as a pure function of the path string. -/
def classify (p : String) : Rule :=
  if endsWithStr (pyName p) ".schema.json" then .schemaFile
  else if isYamlSuffix (pySuffix p) && containsSub ".schema." (pyName p) then .openapiSpecYaml
  else if pySuffix p == ".json" && !(endsWithStr (pyName p) ".schema.json") then .jsonInstance
  else if isYamlSuffix (pySuffix p) then .yamlInstance
  else .skip

/-- Python exceptions relevant to the validator.  `jsonschema`
`ValidationError`/`SchemaError` are caught specially in `main`; every other
exception (`FileNotFoundError` — the spec taxonomy calls it `SchemaNotFound`
—, `TypeError`, parse errors, network errors) lands in the generic handler. -/
inductive PyErr where
  | validationErr (msg : String) : PyErr
  | fileNotFound (msg : String) : PyErr
  | typeErr (msg : String) : PyErr
  | other (msg : String) : PyErr
deriving Repr, DecidableEq

/-- `str(e)` of a modelled exception. -/
def pyErrStr : PyErr → String
  | .validationErr m => m
  | .fileNotFound m => m
  | .typeErr m => m
  | .other m => m

/-- Result of the schema-resolution fragment of `validate_json_instance`
(validator.py lines 80-98): the resolved schema path or the raised exception,
the list of filesystem existence queries it made (in order), and the instance
document after the call (state passing for the Python dict). -/
structure ResolveResult where
  result : Except PyErr String
  checks : List String
  doc : Dict

/-- The fallback schema path of Case B:
`Path(str(instance_path).replace("instances/json", "schemas/json")).with_suffix(".schema.json")`. -/
def fallbackSchemaPath (instancePath : String) : String :=
  pyWithSuffix (pyReplace instancePath "instances/json" "schemas/json") ".schema.json"

/-- Schema resolution of `validate_json_instance`, instrumented with the
existence checks performed.  `fs` is the filesystem existence oracle
(`Path.exists`).  Case A: a top-level `$schema` key; its value must be a
string or `pathlib.Path` raises `TypeError`.  Case B: the fallback
convention. -/
def resolveSchemaForInstance (fs : String → Bool) (instancePath : String) (doc : Dict) :
    ResolveResult :=
  match List.lookup "$schema" doc with
  | some (Json.str s) =>
      if fs s then ⟨.ok s, [s], doc⟩
      else ⟨.error (.fileNotFound ("Schema path in $schema not found: " ++ s)), [s], doc⟩
  | some _ => ⟨.error (.typeErr "argument should be a str or an os.PathLike object"), [], doc⟩
  | none =>
      if fs (fallbackSchemaPath instancePath) then
        ⟨.ok (fallbackSchemaPath instancePath), [fallbackSchemaPath instancePath], doc⟩
      else
        ⟨.error (.fileNotFound ("No $schema property in " ++ instancePath ++
            ", and fallback schema not found (expected " ++
            fallbackSchemaPath instancePath ++ ")")),
         [fallbackSchemaPath instancePath], doc⟩

/-- Oracles for `validate_json_schema` (validator.py lines 51-57): JSON file
loading, the `Draft202012Validator.check_schema` self-check, the network
fetch of the Draft 2020-12 metaschema, and `validate(instance, schema)`. -/
structure SchemaCheckOracles where
  loadJson : String → Except PyErr Json
  checkSchema : Json → Except PyErr Unit
  fetchMetaschema : Except PyErr Json
  validateAgainst : Json → Json → Except PyErr Unit

/-- The success line printed by `validate_json_schema`. -/
def schemaOkLine (p : String) : String :=
  "✅ " ++ p ++ " is a valid Draft 2020-12 JSON Schema"

/-- `validate_json_schema(schema_path)`: load as JSON, self-check the schema,
fetch the metaschema, validate against it, and only then print success. -/
def validate_json_schema (o : SchemaCheckOracles) (schemaPath : String) :
    Except PyErr String :=
  match o.loadJson schemaPath with
  | .error e => .error e
  | .ok schema =>
    match o.checkSchema schema with
    | .error e => .error e
    | .ok _ =>
      match o.fetchMetaschema with
      | .error e => .error e
      | .ok meta =>
        match o.validateAgainst schema meta with
        | .error e => .error e
        | .ok _ => .ok (schemaOkLine schemaPath)

/-- Failure line printed by `discover_and_validate` just before `sys.exit(1)`. -/
def failLine (p : String) (e : PyErr) : String :=
  "❌ Validation failed for " ++ p ++ ": " ++ pyErrStr e

/-- Dispatch one discovered file: the body of the `try` in
`discover_and_validate`.  `run r p` is the oracle for the validator the rule
`r` invokes on `p` — it yields the lines the validator prints on success, or
the exception it raises.  A `Skip` file invokes no validator, prints nothing
and raises nothing. -/
def dispatchFile (run : Rule → String → Except PyErr (List String)) (p : String) :
    Except PyErr (List String) :=
  match classify p with
  | .skip => .ok []
  | r => run r p

/-- The lines a file contributes when its dispatch succeeds. -/
def okLines (run : Rule → String → Except PyErr (List String)) (p : String) : List String :=
  match dispatchFile run p with
  | .ok ls => ls
  | .error _ => []

/-- `discover_and_validate` (validator.py lines 105-121) over the traversal
sequence of regular files under the root: processes files in order; on the
first exception it prints the failure line and calls `sys.exit(1)`.  Returns
the printed lines and `true` for normal return, `false` for `sys.exit(1)`. -/
def discoverAndValidate (run : Rule → String → Except PyErr (List String)) :
    List String → List String × Bool
  | [] => ([], true)
  | p :: rest =>
    match dispatchFile run p with
    | .ok ls =>
        let r := discoverAndValidate run rest
        (ls ++ r.1, r.2)
    | .error e => ([failLine p e], false)

/-- The validations `main` can perform, for instrumentation: which validator
was invoked on which path(s). -/
inductive Call where
  | schemaCheck (p : String) : Call
  | openapi (p : String) : Call
  | instAgainstSchema (i s : String) : Call
  | jsonInst (p : String) : Call
  | discovery : Call
deriving Repr, DecidableEq

/-- Oracles for `main`: the four validators (each returning its printed lines
or raising), plus the repository root and the traversal sequence used by
discovery mode. -/
structure Oracles where
  vSchema : String → Except PyErr (List String)
  vOpenapi : String → Except PyErr (List String)
  vInstSchema : String → String → Except PyErr (List String)
  vJsonInst : String → Except PyErr (List String)
  run : Rule → String → Except PyErr (List String)
  repoRoot : String
  files : List String

/-- The result of one of the validator oracles of `main`, by instrumented
call. -/
def callResult (o : Oracles) : Call → Except PyErr (List String)
  | .schemaCheck p => o.vSchema p
  | .openapi p => o.vOpenapi p
  | .instAgainstSchema i s => o.vInstSchema i s
  | .jsonInst p => o.vJsonInst p
  | .discovery => .ok []

/-- The line the top-level handlers of `main` print: `ValidationError` and
`SchemaError` get the validation marker, every other exception the generic
one. -/
def errLine : PyErr → String
  | .validationErr m => "❌ Validation failed: " ++ m
  | e => "❌ Unexpected error: " ++ pyErrStr e

/-- What a run of `main` produces: printed lines, process exit code, and the
validations performed (instrumentation). -/
structure MainResult where
  lines : List String
  exitCode : Nat
  calls : List Call
deriving Repr, DecidableEq

/-- Outcome of one validator call under the top-level `try` of `main`: success
prints the validator lines and falls through to exit 0; an exception is
caught, printed and turned into exit 1. -/
def wrapCall (r : Except PyErr (List String)) (cs : List Call) : MainResult :=
  match r with
  | .ok ls => ⟨ls, 0, cs⟩
  | .error e => ⟨[errLine e], 1, cs⟩

/-- Python truthiness of an optional CLI string argument: absent and the
empty string are both falsy. -/
def truthy : Option String → Bool
  | some s => s != ""
  | none => false

/-- The string carried by an optional argument. -/
def argStr : Option String → String
  | some s => s
  | none => ""

/-- `main()` (validator.py lines 128-169) given the parsed arguments and the
oracles.  Mode selection follows the `if args.schema and not args.instance`
chain; each single-file mode has no `else`, so an unmatched extension falls
through with nothing printed, no validation, and exit 0.  In discovery mode
`sys.exit(1)` from the walker is not caught (it is not an `Exception`). -/
def mainRun (o : Oracles) (schemaArg instArg : Option String) : MainResult :=
  if truthy schemaArg && !truthy instArg then
    let sp := argStr schemaArg
    if pySuffix sp == ".json" then wrapCall (o.vSchema sp) [.schemaCheck sp]
    else if isYamlSuffix (pySuffix sp) then wrapCall (o.vOpenapi sp) [.openapi sp]
    else ⟨[], 0, []⟩
  else if truthy schemaArg && truthy instArg then
    let ip := argStr instArg
    let sp := argStr schemaArg
    if pySuffix ip == ".json" && pySuffix sp == ".json" then
      wrapCall (o.vInstSchema ip sp) [.instAgainstSchema ip sp]
    else if isYamlSuffix (pySuffix ip) then wrapCall (o.vOpenapi ip) [.openapi ip]
    else ⟨[], 0, []⟩
  else if truthy instArg && !truthy schemaArg then
    let ip := argStr instArg
    if pySuffix ip == ".json" then wrapCall (o.vJsonInst ip) [.jsonInst ip]
    else if isYamlSuffix (pySuffix ip) then wrapCall (o.vOpenapi ip) [.openapi ip]
    else ⟨[], 0, []⟩
  else
    let header := "🔍 Auto-discovering validations under " ++ o.repoRoot
    let r := discoverAndValidate o.run o.files
    if r.2 then ⟨header :: r.1 ++ ["🎉 All validations passed!"], 0, [.discovery]⟩
    else ⟨header :: r.1, 1, [.discovery]⟩

/-- Validator oracle bundle used to exercise the theorems on concrete runs:
every validator succeeds except on the file `bad.json`. -/
def oTest : Oracles where
  vSchema := fun p => if p == "bad.json" then .error (.other "boom") else .ok [schemaOkLine p]
  vOpenapi := fun p => .ok ["✅ " ++ p ++ " is a valid OpenAPI specification"]
  vInstSchema := fun i s => .ok ["✅ " ++ i ++ " is valid against " ++ s ++ " (with $ref support)"]
  vJsonInst := fun _ => .ok []
  run := fun _ q => if q == "bad.json" then .error (.other "boom") else .ok ["✅ " ++ q]
  repoRoot := "repo"
  files := []

/-- Discovery oracle for concrete runs: every file validates except
`bad.json`. -/
def wrun : Rule → String → Except PyErr (List String) :=
  fun _ q => if q == "bad.json" then .error (.other "boom") else .ok ["✅ " ++ q]

/-- Schema-check oracle bundle on which every step succeeds. -/
def oSchemaOk : SchemaCheckOracles where
  loadJson := fun _ => .ok (Json.obj [])
  checkSchema := fun _ => .ok ()
  fetchMetaschema := .ok (Json.obj [])
  validateAgainst := fun _ _ => .ok ()

/- ------------------------------------------------------------------ -/
/- Theorems -/
/- ------------------------------------------------------------------ -/

/-- String append acts as list append on the character data. -/
theorem strData_append (a b : String) : (a ++ b).data = a.data ++ b.data := rfl

/-- A string occurs as a substring of any string assembled around it. -/
theorem containsSub_append (a pat c : String) : containsSub pat (a ++ pat ++ c) = true := by
  unfold containsSub
  rw [List.any_eq_true]
  refine ⟨a.data.length, ?_, ?_⟩
  · rw [List.mem_range]
    have hd : (a ++ pat ++ c).data = a.data ++ pat.data ++ c.data := rfl
    rw [hd]
    simp
    omega
  · have hd : (a ++ pat ++ c).data = a.data ++ (pat.data ++ c.data) := by
      rw [show (a ++ pat ++ c).data = a.data ++ pat.data ++ c.data from rfl, List.append_assoc]
    rw [hd, List.drop_left, List.isPrefixOf_iff_prefix]
    exact List.prefix_append _ _

/-- Unfolding of the `rfind` helper on a name reversed after stripping the
four characters of `json`. -/
theorem revDotIdx_nosj (x : List Char) :
    revDotIdx ('n' :: 'o' :: 's' :: 'j' :: '.' :: x) = some 4 := by
  simp [revDotIdx]

/-- A name ending in `.schema.json` has suffix `.json`. -/
theorem nameSuffix_of_schemaJson (t : List Char) :
    nameSuffix (t ++ ".schema.json".data) = ".json".data := by
  have hrev : (t ++ ".schema.json".data).reverse =
      'n' :: 'o' :: 's' :: 'j' :: '.' ::
        ('a' :: 'm' :: 'e' :: 'h' :: 'c' :: 's' :: '.' :: t.reverse) := by
    rw [List.reverse_append]
    rfl
  have hlen : (t ++ ".schema.json".data).length = t.length + 12 := by
    rw [List.length_append]
    rfl
  have hlast : lastDotIdx (t ++ ".schema.json".data) = some (t.length + 7) := by
    unfold lastDotIdx
    rw [hrev, revDotIdx_nosj, hlen]
    change some (t.length + 12 - 1 - 4) = some (t.length + 7)
    exact congrArg some (by omega)
  unfold nameSuffix
  rw [hlast]
  change (if 0 < t.length + 7 ∧ t.length + 7 + 1 < (t ++ ".schema.json".data).length then
    List.drop (t.length + 7) (t ++ ".schema.json".data) else []) = ".json".data
  rw [hlen, if_pos (by omega)]
  have hsplit : t ++ ".schema.json".data =
      (t ++ ".schema.json".data.take 7) ++ ".schema.json".data.drop 7 := by
    rw [List.append_assoc, List.take_append_drop]
  rw [hsplit, List.drop_left' (show (t ++ ".schema.json".data.take 7).length = t.length + 7 by
    rw [List.length_append]
    rfl)]
  rfl

/-- C1: a path whose filename ends with `.schema.json` is classified as a
SchemaFile (metaschema validation) and never as a generic JSONInstance,
although its `pathlib` extension is also `.json`: the schema-file branch of
`discover_and_validate` takes precedence over the instance branch. -/
theorem classify_schema_precedence (p : String)
    (h : endsWithStr (pyName p) ".schema.json" = true) :
    classify p = Rule.schemaFile ∧ classify p ≠ Rule.jsonInstance ∧ pySuffix p = ".json" := by
  have hc : classify p = Rule.schemaFile := by
    unfold classify
    rw [if_pos h]
  refine ⟨hc, ?_, ?_⟩
  · rw [hc]
    intro hcon
    exact Rule.noConfusion hcon
  · have h2 : ".schema.json".data.isSuffixOf (pyName p).data = true := h
    rw [List.isSuffixOf_iff_suffix] at h2
    obtain ⟨t, ht⟩ := h2
    unfold pySuffix
    rw [← ht, nameSuffix_of_schemaJson]

/-- C1 witness: a concrete `.schema.json` path. -/
theorem classify_schema_precedence_witness :
    endsWithStr (pyName "x/a.schema.json") ".schema.json" = true ∧
    (classify "x/a.schema.json" = Rule.schemaFile ∧
      classify "x/a.schema.json" ≠ Rule.jsonInstance ∧
      pySuffix "x/a.schema.json" = ".json") :=
  ⟨rfl, classify_schema_precedence "x/a.schema.json" rfl⟩

/-- Equation lemma: resolution when the document declares `$schema` as a
string. -/
theorem resolveSchemaForInstance_str (fs : String → Bool) (ip : String) (doc : Dict)
    (s : String) (h : List.lookup "$schema" doc = some (Json.str s)) :
    resolveSchemaForInstance fs ip doc =
      if fs s then ⟨.ok s, [s], doc⟩
      else ⟨.error (.fileNotFound ("Schema path in $schema not found: " ++ s)), [s], doc⟩ := by
  unfold resolveSchemaForInstance
  rw [h]

/-- Equation lemma: resolution when the document lacks `$schema`. -/
theorem resolveSchemaForInstance_none (fs : String → Bool) (ip : String) (doc : Dict)
    (h : List.lookup "$schema" doc = none) :
    resolveSchemaForInstance fs ip doc =
      if fs (fallbackSchemaPath ip) then
        ⟨.ok (fallbackSchemaPath ip), [fallbackSchemaPath ip], doc⟩
      else
        ⟨.error (.fileNotFound ("No $schema property in " ++ ip ++
            ", and fallback schema not found (expected " ++ fallbackSchemaPath ip ++ ")")),
         [fallbackSchemaPath ip], doc⟩ := by
  unfold resolveSchemaForInstance
  rw [h]

/-- C2: when the instance document has a top-level `$schema` field holding a
path string, resolution returns exactly that path when it exists and raises
`SchemaNotFound` (`FileNotFoundError`) when it does not; in either case it
performs that one existence check and never consults the fallback convention
— the outcome depends on the filesystem only at the declared path. -/
theorem resolve_schema_field (fs : String → Bool) (ip : String) (doc : Dict) (s : String)
    (h : List.lookup "$schema" doc = some (Json.str s)) :
    (fs s = true → resolveSchemaForInstance fs ip doc = ⟨.ok s, [s], doc⟩) ∧
    (fs s = false → resolveSchemaForInstance fs ip doc =
      ⟨.error (.fileNotFound ("Schema path in $schema not found: " ++ s)), [s], doc⟩) ∧
    (∀ fs2 : String → Bool, fs2 s = fs s →
      resolveSchemaForInstance fs2 ip doc = resolveSchemaForInstance fs ip doc) := by
  refine ⟨?_, ?_, ?_⟩
  · intro hfs
    rw [resolveSchemaForInstance_str fs ip doc s h, hfs]
    rfl
  · intro hfs
    rw [resolveSchemaForInstance_str fs ip doc s h, hfs]
    rfl
  · intro fs2 h2
    rw [resolveSchemaForInstance_str fs ip doc s h, resolveSchemaForInstance_str fs2 ip doc s h,
      h2]

/-- C2 witness: a document declaring `$schema` as an existing path. -/
theorem resolve_schema_field_witness :
    List.lookup "$schema" ([("$schema", Json.str "sch.json")] : Dict) =
      some (Json.str "sch.json") ∧
    resolveSchemaForInstance (fun _ => true) "inst.json" [("$schema", Json.str "sch.json")] =
      ⟨.ok "sch.json", ["sch.json"], [("$schema", Json.str "sch.json")]⟩ :=
  ⟨rfl, (resolve_schema_field (fun _ => true) "inst.json"
      [("$schema", Json.str "sch.json")] "sch.json" rfl).1 rfl⟩

/-- C3: without a `$schema` field, resolution builds the fallback path by the
`instances/json` → `schemas/json` replacement plus the `.schema.json`
extension swap, checks its existence, raises `SchemaNotFound` naming exactly
that path when absent and returns it otherwise; on the spec example the
computed path is `.../schemas/json/foo/bar.schema.json`. -/
theorem resolve_fallback (fs : String → Bool) (ip : String) (doc : Dict)
    (h : List.lookup "$schema" doc = none) :
    (resolveSchemaForInstance fs ip doc =
      if fs (fallbackSchemaPath ip) then
        ⟨.ok (fallbackSchemaPath ip), [fallbackSchemaPath ip], doc⟩
      else
        ⟨.error (.fileNotFound ("No $schema property in " ++ ip ++
            ", and fallback schema not found (expected " ++ fallbackSchemaPath ip ++ ")")),
         [fallbackSchemaPath ip], doc⟩) ∧
    containsSub (fallbackSchemaPath ip)
      ("No $schema property in " ++ ip ++ ", and fallback schema not found (expected " ++
        fallbackSchemaPath ip ++ ")") = true ∧
    fallbackSchemaPath "repo/instances/json/foo/bar.json" =
      "repo/schemas/json/foo/bar.schema.json" := by
  refine ⟨?_, ?_, rfl⟩
  · exact resolveSchemaForInstance_none fs ip doc h
  · exact containsSub_append _ _ _

/-- C3 witness: the spec example path with an absent fallback schema. -/
theorem resolve_fallback_witness :
    List.lookup "$schema" ([] : Dict) = none ∧
    resolveSchemaForInstance (fun _ => false) "repo/instances/json/foo/bar.json" [] =
      ⟨.error (.fileNotFound ("No $schema property in repo/instances/json/foo/bar.json" ++
          ", and fallback schema not found (expected " ++
          "repo/schemas/json/foo/bar.schema.json" ++ ")")),
       ["repo/schemas/json/foo/bar.schema.json"], []⟩ := by
  refine ⟨rfl, ?_⟩
  have h := (resolve_fallback (fun _ => false) "repo/instances/json/foo/bar.json" [] rfl).1
  rw [h]
  rfl

/-- C8: schema resolution is deterministic (pointwise-equal filesystem
oracles give identical outcomes), leaves the instance document unchanged,
and performs exactly one filesystem existence check in whichever branch
(`$schema` or fallback) it takes. -/
theorem resolve_hyperprops (fs : String → Bool) (ip : String) (doc : Dict)
    (h : List.lookup "$schema" doc = none ∨
      ∃ s, List.lookup "$schema" doc = some (Json.str s)) :
    (∀ fs2 : String → Bool, (∀ q, fs2 q = fs q) →
      resolveSchemaForInstance fs2 ip doc = resolveSchemaForInstance fs ip doc) ∧
    (resolveSchemaForInstance fs ip doc).doc = doc ∧
    (resolveSchemaForInstance fs ip doc).checks.length = 1 := by
  have hd : (resolveSchemaForInstance fs ip doc).doc = doc ∧
      (resolveSchemaForInstance fs ip doc).checks.length = 1 := by
    rcases h with hnone | ⟨s, hs⟩
    · rw [resolveSchemaForInstance_none fs ip doc hnone]
      by_cases hfs : fs (fallbackSchemaPath ip)
      · rw [if_pos hfs]
        exact ⟨rfl, rfl⟩
      · rw [if_neg hfs]
        exact ⟨rfl, rfl⟩
    · rw [resolveSchemaForInstance_str fs ip doc s hs]
      by_cases hfs : fs s
      · rw [if_pos hfs]
        exact ⟨rfl, rfl⟩
      · rw [if_neg hfs]
        exact ⟨rfl, rfl⟩
  exact ⟨fun fs2 h2 => by rw [funext h2], hd.1, hd.2⟩

/-- C8 witness: a document without `$schema` makes exactly one check. -/
theorem resolve_hyperprops_witness :
    List.lookup "$schema" ([] : Dict) = none ∧
    (resolveSchemaForInstance (fun _ => true) "i.json" []).checks.length = 1 :=
  ⟨rfl, (resolve_hyperprops (fun _ => true) "i.json" [] (Or.inl rfl)).2.2⟩

/-- C5: `validate_json_schema` loads the file as JSON, runs the structural
self-check, then validates against the fetched Draft 2020-12 metaschema; the
success line is reported exactly when every step succeeds, and a failure of
the self-check (resp. of the metaschema validation) aborts with that error,
so either failing check prevents the success report. -/
theorem validate_json_schema_both_checks (o : SchemaCheckOracles) (p : String) :
    ((∃ s m, o.loadJson p = .ok s ∧ o.checkSchema s = .ok () ∧
        o.fetchMetaschema = .ok m ∧ o.validateAgainst s m = .ok ()) ↔
      validate_json_schema o p = .ok (schemaOkLine p)) ∧
    (∀ s e, o.loadJson p = .ok s → o.checkSchema s = .error e →
      validate_json_schema o p = .error e) ∧
    (∀ s m e, o.loadJson p = .ok s → o.checkSchema s = .ok () →
      o.fetchMetaschema = .ok m → o.validateAgainst s m = .error e →
      validate_json_schema o p = .error e) := by
  refine ⟨⟨?_, ?_⟩, ?_, ?_⟩
  · rintro ⟨s, m, hs, hc, hm, hv⟩
    simp only [validate_json_schema, hs, hc, hm, hv]
  · intro hok
    simp only [validate_json_schema] at hok
    cases hL : o.loadJson p with
    | error e => simp [hL] at hok
    | ok s =>
      simp only [hL] at hok
      cases hC : o.checkSchema s with
      | error e => simp [hC] at hok
      | ok u =>
        simp only [hC] at hok
        cases hM : o.fetchMetaschema with
        | error e => simp [hM] at hok
        | ok m =>
          simp only [hM] at hok
          cases hV : o.validateAgainst s m with
          | error e => simp [hV] at hok
          | ok v => exact ⟨s, m, rfl, hC, rfl, hV⟩
  · intro s e hs hc
    simp only [validate_json_schema, hs, hc]
  · intro s m e hs hc hm hv
    simp only [validate_json_schema, hs, hc, hm, hv]

/-- C5 witness: a schema file on which every step succeeds is reported. -/
theorem validate_json_schema_both_checks_witness :
    validate_json_schema oSchemaOk "s.schema.json" = .ok (schemaOkLine "s.schema.json") :=
  (validate_json_schema_both_checks oSchemaOk "s.schema.json").1.mp
    ⟨Json.obj [], Json.obj [], rfl, rfl, rfl, rfl⟩

/-- C7: the classification chain is a total function whose five outcomes
partition all path strings by the four suffix patterns under the stated
first-match precedence: each rule is selected exactly when its pattern
matches and no earlier pattern does, so no path is dispatched under two
rules. -/
theorem classify_total_partition (p : String) :
    (classify p = Rule.schemaFile ↔ endsWithStr (pyName p) ".schema.json" = true) ∧
    (classify p = Rule.openapiSpecYaml ↔
      (endsWithStr (pyName p) ".schema.json" = false ∧
        (isYamlSuffix (pySuffix p) && containsSub ".schema." (pyName p)) = true)) ∧
    (classify p = Rule.jsonInstance ↔
      (endsWithStr (pyName p) ".schema.json" = false ∧
        (isYamlSuffix (pySuffix p) && containsSub ".schema." (pyName p)) = false ∧
        (pySuffix p == ".json") = true)) ∧
    (classify p = Rule.yamlInstance ↔
      (endsWithStr (pyName p) ".schema.json" = false ∧
        (isYamlSuffix (pySuffix p) && containsSub ".schema." (pyName p)) = false ∧
        (pySuffix p == ".json") = false ∧ isYamlSuffix (pySuffix p) = true)) ∧
    (classify p = Rule.skip ↔
      (endsWithStr (pyName p) ".schema.json" = false ∧
        (isYamlSuffix (pySuffix p) && containsSub ".schema." (pyName p)) = false ∧
        (pySuffix p == ".json") = false ∧ isYamlSuffix (pySuffix p) = false)) := by
  cases h1 : endsWithStr (pyName p) ".schema.json" <;>
    cases h2 : isYamlSuffix (pySuffix p) <;>
    cases h3 : containsSub ".schema." (pyName p) <;>
    cases h4 : pySuffix p == ".json" <;>
    simp [classify, h1, h2, h3, h4]

/-- C4: in discovery mode, when every file before `p` in traversal order
dispatches successfully and `p` fails, the walker prints the success lines of
the earlier files followed by the failure line for `p` and exits with status
1 (the `false` flag models `sys.exit(1)`); the outcome is the same for every
continuation of the traversal, so no file after `p` is processed or reported
(fail-fast). -/
theorem discover_fail_fast (run : Rule → String → Except PyErr (List String))
    (pre : List String) (p : String) (e : PyErr)
    (hpre : ∀ q ∈ pre, ∃ ls, dispatchFile run q = .ok ls)
    (hp : dispatchFile run p = .error e) :
    ∀ post, discoverAndValidate run (pre ++ p :: post) =
      ((pre.map (okLines run)).flatten ++ [failLine p e], false) := by
  induction pre with
  | nil =>
    intro post
    simp [discoverAndValidate, hp]
  | cons q pre ih =>
    intro post
    obtain ⟨ls, hq⟩ := hpre q (List.mem_cons_self q pre)
    have ih2 := ih (fun r hr => hpre r (List.mem_cons_of_mem q hr)) post
    simp [discoverAndValidate, hq, ih2, okLines]

/-- C4 witness: a passing file, then a failing one, then a file that is never
reached. -/
theorem discover_fail_fast_witness :
    (∀ q ∈ ["a.yaml"], ∃ ls, dispatchFile wrun q = .ok ls) ∧
    dispatchFile wrun "bad.json" = .error (.other "boom") ∧
    discoverAndValidate wrun (["a.yaml"] ++ "bad.json" :: ["c.json"]) =
      ((["a.yaml"].map (okLines wrun)).flatten ++ [failLine "bad.json" (PyErr.other "boom")],
        false) := by
  refine ⟨?_, rfl, ?_⟩
  · intro q hq
    simp only [List.mem_singleton] at hq
    subst hq
    exact ⟨["✅ a.yaml"], rfl⟩
  · exact discover_fail_fast wrun ["a.yaml"] "bad.json" (PyErr.other "boom")
      (fun q hq => by
        simp only [List.mem_singleton] at hq
        subst hq
        exact ⟨["✅ a.yaml"], rfl⟩)
      rfl ["c.json"]

/-- In a single-file mode (at least one truthy flag), `main` either matches
no extension pattern — printing nothing, performing no validation and
exiting 0 — or performs exactly one validator call whose outcome it wraps:
lines and exit 1 from the handler on error, the validator lines and exit 0
on success. -/
theorem mainRun_single_shape (o : Oracles) (sa ia : Option String)
    (hmode : (truthy sa || truthy ia) = true) :
    mainRun o sa ia = ⟨[], 0, []⟩ ∨
    ∃ c : Call, mainRun o sa ia = wrapCall (callResult o c) [c] := by
  cases hsa : truthy sa <;> cases hia : truthy ia
  · rw [hsa, hia] at hmode
    simp at hmode
  · by_cases h1 : (pySuffix (argStr ia) == ".json") = true
    · right
      exact ⟨Call.jsonInst (argStr ia), by simp [mainRun, hsa, hia, h1, callResult]⟩
    · by_cases h2 : isYamlSuffix (pySuffix (argStr ia)) = true
      · right
        exact ⟨Call.openapi (argStr ia), by simp [mainRun, hsa, hia, h1, h2, callResult]⟩
      · left
        simp [mainRun, hsa, hia, h1, h2]
  · by_cases h1 : (pySuffix (argStr sa) == ".json") = true
    · right
      exact ⟨Call.schemaCheck (argStr sa), by simp [mainRun, hsa, hia, h1, callResult]⟩
    · by_cases h2 : isYamlSuffix (pySuffix (argStr sa)) = true
      · right
        exact ⟨Call.openapi (argStr sa), by simp [mainRun, hsa, hia, h1, h2, callResult]⟩
      · left
        simp [mainRun, hsa, hia, h1, h2]
  · by_cases h1 : (pySuffix (argStr ia) == ".json" && pySuffix (argStr sa) == ".json") = true
    · right
      exact ⟨Call.instAgainstSchema (argStr ia) (argStr sa),
        by simp [mainRun, hsa, hia, h1, callResult]⟩
    · by_cases h2 : isYamlSuffix (pySuffix (argStr ia)) = true
      · right
        exact ⟨Call.openapi (argStr ia), by simp [mainRun, hsa, hia, h1, h2, callResult]⟩
      · left
        simp [mainRun, hsa, hia, h1, h2]

/-- The instrumented call list of a wrapped validator outcome. -/
theorem wrapCall_calls (r : Except PyErr (List String)) (cs : List Call) :
    (wrapCall r cs).calls = cs := by
  cases r <;> rfl

/-- C6: in every single-file CLI invocation, an exception raised by the
performed validation is caught at the top level of `main`, printed as the
handler line (which carries the failure marker), and turns into exit code 1;
when every performed validation succeeds the process exits 0. -/
theorem main_single_file_exit (o : Oracles) (sa ia : Option String)
    (hmode : (truthy sa || truthy ia) = true) :
    ((∀ c ∈ (mainRun o sa ia).calls, ∃ ls, callResult o c = .ok ls) →
      (mainRun o sa ia).exitCode = 0) ∧
    (∀ c e, c ∈ (mainRun o sa ia).calls → callResult o c = .error e →
      (mainRun o sa ia).lines = [errLine e] ∧ (mainRun o sa ia).exitCode = 1) := by
  rcases mainRun_single_shape o sa ia hmode with h | ⟨c, h⟩
  · rw [h]
    refine ⟨fun _ => rfl, ?_⟩
    intro c e hc _
    simp at hc
  · rw [h, wrapCall_calls]
    constructor
    · intro hall
      obtain ⟨ls, hls⟩ := hall c (List.mem_singleton_self c)
      rw [hls]
      rfl
    · intro c2 e hc2 he
      rw [List.mem_singleton] at hc2
      subst hc2
      rw [he]
      exact ⟨rfl, rfl⟩

/-- C6 witness: `--schema bad.json` with a failing schema validator. -/
theorem main_single_file_exit_witness :
    (truthy (some "bad.json") || truthy none) = true ∧
    Call.schemaCheck "bad.json" ∈ (mainRun oTest (some "bad.json") none).calls ∧
    callResult oTest (Call.schemaCheck "bad.json") = .error (PyErr.other "boom") ∧
    ((mainRun oTest (some "bad.json") none).lines = [errLine (PyErr.other "boom")] ∧
      (mainRun oTest (some "bad.json") none).exitCode = 1) :=
  ⟨rfl, by decide, rfl,
    (main_single_file_exit oTest (some "bad.json") none rfl).2
      (Call.schemaCheck "bad.json") (PyErr.other "boom") (by decide) rfl⟩

/-- C9 counterexample: `--schema foo.txt` names a path the tool cannot
handle, yet `main` performs no validation, prints nothing and exits 0 — a
silent swallow outside discovery, contradicting the claim that such an
invocation always prints a diagnostic and exits non-zero. -/
theorem main_silent_swallow_cex :
    truthy (some "foo.txt") = true ∧
    mainRun oTest (some "foo.txt") none = ⟨[], 0, []⟩ :=
  ⟨rfl, rfl⟩

/-- C9 (amended): in a single-file CLI invocation, either the extensions
match no handled pattern — then no validation is performed and the process
exits 0 silently — or exactly one validation is performed and its error is
never swallowed: it is printed as the handler line and exits 1, while
success prints the validator lines and exits 0. -/
theorem main_no_silent_error (o : Oracles) (sa ia : Option String)
    (hmode : (truthy sa || truthy ia) = true) :
    mainRun o sa ia = ⟨[], 0, []⟩ ∨
    ∃ c, (mainRun o sa ia).calls = [c] ∧
      (∀ e, callResult o c = .error e →
        (mainRun o sa ia).lines = [errLine e] ∧ (mainRun o sa ia).exitCode = 1) ∧
      (∀ ls, callResult o c = .ok ls →
        (mainRun o sa ia).lines = ls ∧ (mainRun o sa ia).exitCode = 0) := by
  rcases mainRun_single_shape o sa ia hmode with h | ⟨c, h⟩
  · exact Or.inl h
  · right
    refine ⟨c, by rw [h, wrapCall_calls], ?_, ?_⟩
    · intro e he
      rw [h, he]
      exact ⟨rfl, rfl⟩
    · intro ls hls
      rw [h, hls]
      exact ⟨rfl, rfl⟩

/-- C9 (amended) witness: a failing single-file invocation is reported. -/
theorem main_no_silent_error_witness :
    (truthy (some "bad.json") || truthy none) = true ∧
    (mainRun oTest (some "bad.json") none = ⟨[], 0, []⟩ ∨
      ∃ c, (mainRun oTest (some "bad.json") none).calls = [c] ∧
        (∀ e, callResult oTest c = .error e →
          (mainRun oTest (some "bad.json") none).lines = [errLine e] ∧
          (mainRun oTest (some "bad.json") none).exitCode = 1) ∧
        (∀ ls, callResult oTest c = .ok ls →
          (mainRun oTest (some "bad.json") none).lines = ls ∧
          (mainRun oTest (some "bad.json") none).exitCode = 0)) :=
  ⟨rfl, main_no_silent_error oTest (some "bad.json") none rfl⟩

/-- C10: with both flags given, a `.json` instance paired with a non-`.json`
schema matches neither branch of that mode: `main` performs no validation on
either file, prints nothing, and exits 0, silently ignoring the explicit
schema. -/
theorem main_explicit_schema_ignored (o : Oracles) (s i : String)
    (hs : s ≠ "") (hij : pySuffix i = ".json") (hsj : pySuffix s ≠ ".json") :
    mainRun o (some s) (some i) = ⟨[], 0, []⟩ := by
  have hi : i ≠ "" := by
    intro h
    rw [h] at hij
    exact absurd hij (by decide)
  have hts : truthy (some s) = true := by
    simp [truthy, hs]
  have hti : truthy (some i) = true := by
    simp [truthy, hi]
  have hsj2 : (pySuffix s == ".json") = false := by
    simp [hsj]
  simp [mainRun, hts, hti, argStr, hij, hsj2, isYamlSuffix]

/-- C10 witness: `--schema b.yaml --instance a.json`. -/
theorem main_explicit_schema_ignored_witness :
    ("b.yaml" ≠ "" ∧ pySuffix "a.json" = ".json" ∧ pySuffix "b.yaml" ≠ ".json") ∧
    mainRun oTest (some "b.yaml") (some "a.json") = ⟨[], 0, []⟩ :=
  ⟨⟨by decide, rfl, by decide⟩,
    main_explicit_schema_ignored oTest "b.yaml" "a.json" (by decide) rfl (by decide)⟩

end Validator
